import Mathlib

/-!
Verification of the sync-notes reconciliation logic (src/main.py).

The program watches a local folder and mirrors file create/modify events to
a Google-Drive-like remote service.  We shallowly embed the decision logic of
`FileSyncHandler.upload_file`, the event dispatch (`on_created`/`on_modified`),
the bootstrap scan (`sync_existing_files`) and the ordering of `main`.

The remote service is modelled as an environment: a list of remote objects
(the catalog) plus injectable failures for the list query, the local file
read, and the create/update mutations.  Remote calls performed by a
reconciliation are recorded as a trace of `RemoteOp`s.
-/

namespace SyncNotes

/-- The configured local folder (src/main.py line 14). -/
def LOCAL_FOLDER : String := "/home/angus/synced-gdrive"

/-- The remote service's view of one stored object.  `md5Checksum` is the
stored content fingerprint kept by the remote service; the program's list
query requests only `files(id, name)` and never reads it. -/
structure RemoteObject where
  id : String
  name : String
  parents : List String
  trashed : Bool
  md5Checksum : Option Nat
deriving Repr, DecidableEq

/-- A descriptor as returned by the list query: the code asks for
`fields="files(id, name)"` (src/main.py line 42). -/
structure Descriptor where
  id : String
  name : String
deriving Repr, DecidableEq

/-- One remote API call recorded in a reconciliation trace.  `deleteOp` and
`trashOp` exist in the remote API; the theorems show the program never emits
them. -/
inductive RemoteOp where
  | listOp (queryName : String) (folderId : String)
  | createOp (name : String) (parents : List String) (content : List Nat) (mimeType : String)
  | updateOp (fileId : String) (content : List Nat)
  | deleteOp (fileId : String)
  | trashOp (fileId : String)
deriving Repr, DecidableEq

/-- Result of one `upload_file` call, as observable from its prints:
created, updated (with the target remote id), or a caught, logged error. -/
inductive SyncOutcome where
  | created
  | updated (fileId : String)
  | errored (msg : String)
deriving Repr, DecidableEq

/-- The spec's `SyncDecision` value space: {Skip, Create, Update(target id)},
plus a `failed` case for a reconciliation aborted by a caught error. -/
inductive SyncDecision where
  | skip
  | create
  | update (targetId : String)
  | failed (msg : String)
deriving Repr, DecidableEq

/-- The decision realised by an `upload_file` outcome.  No outcome maps to
`SyncDecision.skip`: the code has no skip path. -/
def decisionOf : SyncOutcome → SyncDecision
  | .created => .create
  | .updated fileId => .update fileId
  | .errored msg => .failed msg

/-- Environment for one run: the remote catalog plus injectable failures.
`listError name` models a `RemoteServiceError` raised by the list query for
that name; `readFile` models opening the local file (raising `IOError` when
absent); `createError`/`updateError` model failing mutation calls. -/
structure DriveEnv where
  remote : List RemoteObject
  listError : String → Option String
  readFile : String → Except String (List Nat)
  createError : String → Option String
  updateError : String → Option String

/-- Does a remote object match the list query
`name='N' and parents in 'F' and trashed=false` (src/main.py line 41)? -/
def matchesQuery (name folderId : String) (o : RemoteObject) : Bool :=
  o.name == name && o.parents.contains folderId && !o.trashed

/-- The descriptor fields the query requests: `fields="files(id, name)"`. -/
def toDescriptor (o : RemoteObject) : Descriptor :=
  { id := o.id, name := o.name }

/-- The list call of src/main.py lines 40-43: returns the matching
descriptors (id and name only), or the injected `RemoteServiceError`. -/
def drive_list (env : DriveEnv) (name folderId : String) :
    Except String (List Descriptor) :=
  match env.listError name with
  | some e => .error e
  | none => .ok ((env.remote.filter (matchesQuery name folderId)).map toDescriptor)

/-- The characters of the final path component: walking the characters, the
accumulator restarts after each `/`. -/
def lastCompAux : List Char → List Char → List Char
  | [], acc => acc.reverse
  | c :: rest, acc =>
    if c = '/' then lastCompAux rest [] else lastCompAux rest (c :: acc)

/-- `Path(file_path).name`: the final path component (src/main.py line 37). -/
def pathName (p : String) : String :=
  String.mk (lastCompAux p.toList [])

/-- The characters after the last dot seen so far: each `.` restarts the
candidate extension; `none` while no dot has been seen. -/
def extAux : List Char → Option (List Char) → Option (List Char)
  | [], cur => cur
  | c :: rest, cur =>
    if c = '.' then extAux rest (some [])
    else extAux rest (cur.map (fun l => l ++ [c]))

/-- The extension of the final path component (text after the last dot),
`none` when the name has no dot. -/
def extOf (p : String) : Option String :=
  (extAux (pathName p).toList none).map String.mk

/-- Extension-to-MIME table modelling the Python `mimetypes` registry for
common extensions (an external stdlib collaborator of src/main.py line 46). -/
def mimeTypesTable : List (String × String) :=
  [("txt", "text/plain"), ("html", "text/html"), ("json", "application/json"),
   ("csv", "text/csv"), ("xml", "text/xml"), ("png", "image/png"),
   ("jpg", "image/jpeg"), ("pdf", "application/pdf")]

/-- `mimetypes.guess_type`: look the extension up in the registry
(src/main.py line 46). -/
def guess_type (p : String) : Option String :=
  match extOf p with
  | none => none
  | some e => mimeTypesTable.lookup e

/-- The MIME type used for the upload: the guess, defaulting to
`application/octet-stream` when unrecognized (src/main.py lines 46-48). -/
def mimeTypeFor (p : String) : String :=
  match guess_type p with
  | none => "application/octet-stream"
  | some m => m

/-- The body of `upload_file` (the `try:` block, src/main.py lines 37-71),
before the `except` clause.  `Except.error (e, ops)` models an exception
escaping the block after the remote calls `ops` were already issued:
derive the name, run the list query, infer the MIME type, open the local
file (`MediaFileUpload`), then update the first match or create a new
object. -/
def upload_file_body (env : DriveEnv) (drive_folder_id file_path : String) :
    Except (String × List RemoteOp) (SyncOutcome × List RemoteOp) :=
  let file_name := pathName file_path
  match drive_list env file_name drive_folder_id with
  | .error e => .error (e, [.listOp file_name drive_folder_id])
  | .ok existing_files =>
    let mime_type := mimeTypeFor file_path
    match env.readFile file_path with
    | .error e => .error (e, [.listOp file_name drive_folder_id])
    | .ok content =>
      match existing_files with
      | first :: _ =>
        let ops := [RemoteOp.listOp file_name drive_folder_id,
                    RemoteOp.updateOp first.id content]
        match env.updateError first.id with
        | some e => .error (e, ops)
        | none => .ok (.updated first.id, ops)
      | [] =>
        let ops := [RemoteOp.listOp file_name drive_folder_id,
                    RemoteOp.createOp file_name [drive_folder_id] content mime_type]
        match env.createError file_name with
        | some e => .error (e, ops)
        | none => .ok (.created, ops)

/-- `FileSyncHandler.upload_file` (src/main.py lines 35-74): the body wrapped
in the `except Exception` handler, which logs the error and returns
normally.  The function is total: no exception escapes. -/
def upload_file (env : DriveEnv) (drive_folder_id file_path : String) :
    SyncOutcome × List RemoteOp :=
  match upload_file_body env drive_folder_id file_path with
  | .ok r => r
  | .error (e, ops) => (.errored e, ops)

/-- A filesystem event as delivered by the watch mechanism.  `deleted` and
`moved` are delivered by the library but the handler does not override their
hooks. -/
inductive WEvent where
  | created (srcPath : String) (isDirectory : Bool)
  | modified (srcPath : String) (isDirectory : Bool)
  | deleted (srcPath : String) (isDirectory : Bool)
  | moved (srcPath destPath : String) (isDirectory : Bool)
deriving Repr, DecidableEq

/-- Event dispatch of `FileSyncHandler` (src/main.py lines 25-33):
`on_created` and `on_modified` call `upload_file` when the event subject is
not a directory; every other event is ignored (`none`). -/
def dispatchEvent (env : DriveEnv) (drive_folder_id : String) (ev : WEvent) :
    Option (SyncOutcome × List RemoteOp) :=
  match ev with
  | .created p isDir => if isDir then none else some (upload_file env drive_folder_id p)
  | .modified p isDir => if isDir then none else some (upload_file env drive_folder_id p)
  | .deleted _ _ => none
  | .moved _ _ _ => none

/-- One entry returned by `Path(local_folder).glob('*')`: a path plus whether
`is_file()` holds. -/
structure DirEntry where
  path : String
  isFile : Bool
deriving Repr, DecidableEq

/-- `sync_existing_files` (src/main.py lines 126-132): walk the glob listing
in order, reconcile each regular file, collecting each file's outcome and
remote-call trace. -/
def sync_existing_files (env : DriveEnv) (folder_id : String) :
    List DirEntry → List (String × SyncOutcome × List RemoteOp)
  | [] => []
  | e :: rest =>
    if e.isFile then
      (e.path, upload_file env folder_id e.path) :: sync_existing_files env folder_id rest
    else
      sync_existing_files env folder_id rest

/-- A node of the local directory tree. -/
inductive FsNode where
  | file (name : String)
  | dir (name : String) (children : List FsNode)
deriving Repr

/-- `Path(dir).glob('*')`: the immediate children of the directory, each
tagged with whether it is a regular file; nothing below the first level. -/
def globStar (dirPath : String) (children : List FsNode) : List DirEntry :=
  children.map (fun c =>
    match c with
    | .file n => { path := dirPath ++ "/" ++ n, isFile := true }
    | .dir n _ => { path := dirPath ++ "/" ++ n, isFile := false })

/-- The names of the regular files among a list of nodes. -/
def topFileNames : List FsNode → List String
  | [] => []
  | .file n :: rest => n :: topFileNames rest
  | .dir _ _ :: rest => topFileNames rest

/-- One observable step of `main` after the folder id is established. -/
inductive MainStep where
  | reconcileStep (path : String) (out : SyncOutcome) (ops : List RemoteOp)
  | startWatchStep (dir : String) (recursive : Bool)
deriving Repr, DecidableEq

/-- The step trace of `main` (src/main.py lines 149-160): sync the existing
files of the local folder's immediate listing, then start the observer on
`LOCAL_FOLDER` with `recursive=True`. -/
def mainSteps (env : DriveEnv) (drive_folder_id : String)
    (children : List FsNode) : List MainStep :=
  (sync_existing_files env drive_folder_id (globStar LOCAL_FOLDER children)).map
    (fun r => .reconcileStep r.1 r.2.1 r.2.2)
  ++ [.startWatchStep LOCAL_FOLDER true]

/-- Modelled from the spec: the Content Fingerprinter is not part of
src/main.py ("a fixed-length digest (128-bit, hex-encoded) over the full
byte content ... Deterministic: identical bytes → identical fingerprint;
used only for equality comparison").  Modelled as a deterministic 128-bit
fold of the bytes. -/
def fingerprint (content : List Nat) : Nat :=
  content.foldl (fun acc b => (acc * 257 + b + 1) % 2 ^ 128) 0

/-- Is the remote call a mutation (anything but a list query)? -/
def isMutation : RemoteOp → Bool
  | .listOp _ _ => false
  | _ => true

/-- Is the remote call a delete or trash mutation? -/
def isDeleteOrTrash : RemoteOp → Bool
  | .deleteOp _ => true
  | .trashOp _ => true
  | _ => false

/-- The kind and target of a chosen mutation, ignoring the uploaded bytes:
a creation targets a fresh object of the given name, an update targets an
existing remote id. -/
inductive MutTarget where
  | createTarget (name : String)
  | updateTarget (fileId : String)
deriving Repr, DecidableEq

/-- The first mutation appearing in a remote-call trace, ignoring content. -/
def chosenMutation : List RemoteOp → Option MutTarget
  | [] => none
  | .createOp n _ _ _ :: _ => some (.createTarget n)
  | .updateOp i _ :: _ => some (.updateTarget i)
  | _ :: rest => chosenMutation rest

/-- Whether an event's subject is a directory (`event.is_directory`). -/
def eventIsDirectory : WEvent → Bool
  | .created _ d => d
  | .modified _ d => d
  | .deleted _ d => d
  | .moved _ _ d => d

/-- A remote object with its stored fingerprint forgotten. -/
def scrubObject (o : RemoteObject) : RemoteObject :=
  { o with md5Checksum := none }

/-- The environment with every stored remote fingerprint forgotten: the
program behaves identically on it, witnessing that no fingerprint is ever
compared. -/
def scrubMd5 (env : DriveEnv) : DriveEnv :=
  { env with remote := env.remote.map scrubObject }

/-- Watch-loop processing of a list of delivered events: each event is
handled independently by the dispatcher. -/
def processEvents (env : DriveEnv) (fid : String) (evs : List WEvent) :
    List (WEvent × Option (SyncOutcome × List RemoteOp)) :=
  evs.map (fun ev => (ev, dispatchEvent env fid ev))

/-- Witness environment: empty remote catalog, no failures, every local
read returns the bytes of "hello". -/
def envW1 : DriveEnv :=
  { remote := []
    listError := fun _ => none
    readFile := fun _ => .ok [104, 101, 108, 108, 111]
    createError := fun _ => none
    updateError := fun _ => none }

/-- The remote object used against claim C2: `report.txt` stored with a
fingerprint equal to the local content fingerprint of the bytes `[104, 105]`. -/
def objC2 : RemoteObject :=
  { id := "r1", name := "report.txt", parents := ["fld"], trashed := false
    md5Checksum := some (fingerprint [104, 105]) }

/-- Environment for claim C2: the catalog holds exactly `objC2` and the
local file content is `[104, 105]`, so stored and local fingerprints agree. -/
def envC2 : DriveEnv :=
  { remote := [objC2]
    listError := fun _ => none
    readFile := fun _ => .ok [104, 105]
    createError := fun _ => none
    updateError := fun _ => none }

/-- Environment whose list query always raises a `RemoteServiceError`. -/
def envC6 : DriveEnv :=
  { remote := []
    listError := fun _ => some "network down"
    readFile := fun _ => .ok [0]
    createError := fun _ => none
    updateError := fun _ => none }

/-- Environment for claim C5: the list query fails for `broken.bin` only;
everything else succeeds against an empty catalog. -/
def envC5 : DriveEnv :=
  { remote := []
    listError := fun name => if name = "broken.bin" then some "network down" else none
    readFile := fun _ => .ok [1, 2, 3]
    createError := fun _ => none
    updateError := fun _ => none }

/-- Scan listing for claim C5: `broken.bin` (whose lookup will fail) is
enumerated before `ok.bin`. -/
def entriesC5 : List DirEntry :=
  [{ path := "/home/angus/synced-gdrive/broken.bin", isFile := true },
   { path := "/home/angus/synced-gdrive/ok.bin", isFile := true }]

/-- Environment for claim C4: two non-deleted remote objects both named
`report.txt` inside the container `fld` (an ambiguous catalog). -/
def envC4 : DriveEnv :=
  { remote :=
      [{ id := "rA", name := "report.txt", parents := ["fld"], trashed := false
         md5Checksum := none },
       { id := "rB", name := "report.txt", parents := ["fld"], trashed := false
         md5Checksum := none }]
    listError := fun _ => none
    readFile := fun _ => .ok [104, 105]
    createError := fun _ => none
    updateError := fun _ => none }

/-- First environment for claim C10: catalog holds `n.txt` with id `r9`;
the local file reads as `[1]`. -/
def envC10a : DriveEnv :=
  { remote :=
      [{ id := "r9", name := "n.txt", parents := ["fld"], trashed := false
         md5Checksum := none }]
    listError := fun _ => none
    readFile := fun _ => .ok [1]
    createError := fun _ => none
    updateError := fun _ => none }

/-- Second environment for claim C10: same catalog as `envC10a` but the
local file reads as the different bytes `[2, 3]`. -/
def envC10b : DriveEnv :=
  { remote :=
      [{ id := "r9", name := "n.txt", parents := ["fld"], trashed := false
         md5Checksum := none }]
    listError := fun _ => none
    readFile := fun _ => .ok [2, 3]
    createError := fun _ => none
    updateError := fun _ => none }

end SyncNotes

namespace SyncNotes

/-! ## Shared helper lemmas -/

/-- A list query with no injected error returns the descriptors of exactly
the catalog objects matching the query. -/
theorem drive_list_of_no_error (env : DriveEnv) (n fid : String)
    (h : env.listError n = none) :
    drive_list env n fid =
      .ok ((env.remote.filter (matchesQuery n fid)).map toDescriptor) := by
  simp [drive_list, h]

/-- When the lookup finds nothing, `upload_file` issues exactly one list
query and one creation with the file's name, the container as parent, the
read content, and the inferred MIME type. -/
theorem upload_shape_create (env : DriveEnv) (fid p : String) (c : List Nat)
    (hdl : drive_list env (pathName p) fid = .ok [])
    (hr : env.readFile p = .ok c) :
    (upload_file env fid p).2 =
      [RemoteOp.listOp (pathName p) fid,
       RemoteOp.createOp (pathName p) [fid] c (mimeTypeFor p)] ∧
    (env.createError (pathName p) = none →
      (upload_file env fid p).1 = SyncOutcome.created) ∧
    (∀ e, env.createError (pathName p) = some e →
      (upload_file env fid p).1 = SyncOutcome.errored e) := by
  cases hce : env.createError (pathName p) <;>
    simp [upload_file, upload_file_body, hdl, hr, hce]

/-- When the lookup returns at least one descriptor, `upload_file` issues
exactly one list query and one update against the first descriptor's id. -/
theorem upload_shape_update (env : DriveEnv) (fid p : String) (c : List Nat)
    (d : Descriptor) (ds : List Descriptor)
    (hdl : drive_list env (pathName p) fid = .ok (d :: ds))
    (hr : env.readFile p = .ok c) :
    (upload_file env fid p).2 =
      [RemoteOp.listOp (pathName p) fid, RemoteOp.updateOp d.id c] ∧
    (env.updateError d.id = none →
      (upload_file env fid p).1 = SyncOutcome.updated d.id) ∧
    (∀ e, env.updateError d.id = some e →
      (upload_file env fid p).1 = SyncOutcome.errored e) := by
  cases hue : env.updateError d.id <;>
    simp [upload_file, upload_file_body, hdl, hr, hue]

/-- No outcome of the code realises the spec's Skip decision. -/
theorem decisionOf_ne_skip (o : SyncOutcome) : decisionOf o ≠ SyncDecision.skip := by
  cases o <;> simp [decisionOf]

/-- Forgetting stored fingerprints does not change a query's result
descriptors: the query and the requested fields never read them. -/
theorem filter_map_scrub (n fid : String) (l : List RemoteObject) :
    ((l.map scrubObject).filter (matchesQuery n fid)).map toDescriptor =
      (l.filter (matchesQuery n fid)).map toDescriptor := by
  induction l with
  | nil => rfl
  | cons o rest ih =>
    have hq : matchesQuery n fid (scrubObject o) = matchesQuery n fid o := rfl
    have ht : toDescriptor (scrubObject o) = toDescriptor o := rfl
    cases h : matchesQuery n fid o <;>
      simp [List.filter_cons, hq, h, ht, ih]

/-- The list call is blind to stored fingerprints. -/
theorem drive_list_scrub (env : DriveEnv) (n fid : String) :
    drive_list (scrubMd5 env) n fid = drive_list env n fid := by
  unfold drive_list scrubMd5
  cases h : env.listError n <;> simp [h, filter_map_scrub]

/-- The whole reconciliation is blind to stored fingerprints: it never
fetches or compares them. -/
theorem upload_file_scrub (env : DriveEnv) (fid p : String) :
    upload_file (scrubMd5 env) fid p = upload_file env fid p := by
  have h1 : (scrubMd5 env).readFile = env.readFile := rfl
  have h2 : (scrubMd5 env).createError = env.createError := rfl
  have h3 : (scrubMd5 env).updateError = env.updateError := rfl
  unfold upload_file upload_file_body
  simp only [drive_list_scrub, h1, h2, h3]

/-- Every regular-file entry of the scan listing contributes its own
reconciliation result to the scan output, whatever happened to the other
entries. -/
theorem mem_sync_existing_files (env : DriveEnv) (fid : String)
    (entries : List DirEntry) (entry : DirEntry)
    (hmem : entry ∈ entries) (hfile : entry.isFile = true) :
    (entry.path, upload_file env fid entry.path) ∈
      sync_existing_files env fid entries := by
  induction entries with
  | nil => cases hmem
  | cons a rest ih =>
    rcases List.mem_cons.mp hmem with h | h
    · subst h
      simp [sync_existing_files, hfile]
    · cases ha : a.isFile <;> simp [sync_existing_files, ha, ih h]

/-- Conversely, every scan result is the reconciliation of one of the
regular-file entries. -/
theorem sync_existing_files_mem (env : DriveEnv) (fid : String)
    (entries : List DirEntry) (r : String × SyncOutcome × List RemoteOp)
    (h : r ∈ sync_existing_files env fid entries) :
    ∃ e, e ∈ entries ∧ e.isFile = true ∧
      r = (e.path, upload_file env fid e.path) := by
  induction entries with
  | nil => cases h
  | cons a rest ih =>
    by_cases ha : a.isFile = true
    · rw [sync_existing_files, if_pos ha] at h
      rcases List.mem_cons.mp h with h | h
      · exact ⟨a, List.mem_cons_self a rest, ha, h⟩
      · obtain ⟨e, he, hef, hr⟩ := ih h
        exact ⟨e, List.mem_cons_of_mem a he, hef, hr⟩
    · rw [sync_existing_files, if_neg ha] at h
      obtain ⟨e, he, hef, hr⟩ := ih h
      exact ⟨e, List.mem_cons_of_mem a he, hef, hr⟩

/-! ## Claim theorems -/

/-- C1: for every file whose name has no matching non-deleted remote
descriptor in the container, the decision is Create: exactly one remote
object creation is performed, uploading the file's content with the
container as parent and a MIME type inferred from the filename extension,
defaulting to application/octet-stream when the extension is unrecognized. -/
theorem create_when_no_descriptor (env : DriveEnv) (fid p : String) (c : List Nat)
    (hls : env.listError (pathName p) = none)
    (hnone : env.remote.filter (matchesQuery (pathName p) fid) = [])
    (hr : env.readFile p = .ok c) :
    (upload_file env fid p).2 =
      [RemoteOp.listOp (pathName p) fid,
       RemoteOp.createOp (pathName p) [fid] c (mimeTypeFor p)] ∧
    ((upload_file env fid p).2.filter isMutation).length = 1 ∧
    (guess_type p = none → mimeTypeFor p = "application/octet-stream") ∧
    (env.createError (pathName p) = none →
      decisionOf (upload_file env fid p).1 = SyncDecision.create) := by
  have hdl : drive_list env (pathName p) fid = .ok [] := by
    rw [drive_list_of_no_error env _ fid hls, hnone]
    rfl
  obtain ⟨hops, hok, _⟩ := upload_shape_create env fid p c hdl hr
  refine ⟨hops, ?_, ?_, ?_⟩
  · rw [hops]
    simp [isMutation]
  · intro hg
    simp [mimeTypeFor, hg]
  · intro hce
    rw [hok hce]
    rfl

/-- Witness for C1: empty catalog, `report.bin` (unrecognized extension),
content "hello". -/
theorem create_when_no_descriptor_witness :
    (upload_file envW1 "folder1" "/home/angus/synced-gdrive/report.bin").2 =
      [RemoteOp.listOp (pathName "/home/angus/synced-gdrive/report.bin") "folder1",
       RemoteOp.createOp (pathName "/home/angus/synced-gdrive/report.bin") ["folder1"]
         [104, 101, 108, 108, 111] (mimeTypeFor "/home/angus/synced-gdrive/report.bin")] ∧
    ((upload_file envW1 "folder1" "/home/angus/synced-gdrive/report.bin").2.filter
        isMutation).length = 1 ∧
    (guess_type "/home/angus/synced-gdrive/report.bin" = none →
      mimeTypeFor "/home/angus/synced-gdrive/report.bin" = "application/octet-stream") ∧
    (envW1.createError (pathName "/home/angus/synced-gdrive/report.bin") = none →
      decisionOf (upload_file envW1 "folder1" "/home/angus/synced-gdrive/report.bin").1 =
        SyncDecision.create) :=
  create_when_no_descriptor envW1 "folder1" "/home/angus/synced-gdrive/report.bin"
    [104, 101, 108, 108, 111] rfl rfl rfl

/-- C2 counterexample: `report.txt` is stored remotely with a fingerprint
equal to the local content fingerprint, yet the startup scan issues an
Update (one remote mutation), not Skip (zero). -/
theorem batch_equal_fingerprint_not_skipped :
    objC2.md5Checksum = some (fingerprint [104, 105]) ∧
    envC2.readFile "/home/angus/synced-gdrive/report.txt" = .ok [104, 105] ∧
    sync_existing_files envC2 "fld"
        [{ path := "/home/angus/synced-gdrive/report.txt", isFile := true }] =
      [("/home/angus/synced-gdrive/report.txt", SyncOutcome.updated "r1",
        [RemoteOp.listOp "report.txt" "fld", RemoteOp.updateOp "r1" [104, 105]])] ∧
    decisionOf (SyncOutcome.updated "r1") ≠ SyncDecision.skip ∧
    ([RemoteOp.listOp "report.txt" "fld",
      RemoteOp.updateOp "r1" [104, 105]].filter isMutation).length = 1 := by
  refine ⟨rfl, rfl, ?_, by decide, by decide⟩
  rfl

/-- C2 (amended): in the startup scan, a file whose name has a matching
descriptor — whatever its stored fingerprint, even one equal to the local
content fingerprint — is reconciled with decision Update against the first
descriptor's id, never Skip, issuing exactly one remote mutation; the
reconciliation is blind to stored fingerprints. -/
theorem batch_descriptor_always_update (env : DriveEnv) (fid : String)
    (entries : List DirEntry) (entry : DirEntry) (c : List Nat)
    (d : Descriptor) (ds : List Descriptor)
    (hmem : entry ∈ entries) (hfile : entry.isFile = true)
    (hdl : drive_list env (pathName entry.path) fid = .ok (d :: ds))
    (hr : env.readFile entry.path = .ok c) :
    (entry.path, upload_file env fid entry.path) ∈
      sync_existing_files env fid entries ∧
    (upload_file env fid entry.path).2 =
      [RemoteOp.listOp (pathName entry.path) fid, RemoteOp.updateOp d.id c] ∧
    decisionOf (upload_file env fid entry.path).1 ≠ SyncDecision.skip ∧
    ((upload_file env fid entry.path).2.filter isMutation).length = 1 ∧
    upload_file (scrubMd5 env) fid entry.path = upload_file env fid entry.path := by
  obtain ⟨hops, _, _⟩ := upload_shape_update env fid entry.path c d ds hdl hr
  refine ⟨mem_sync_existing_files env fid entries entry hmem hfile, hops,
    decisionOf_ne_skip _, ?_, upload_file_scrub env fid entry.path⟩
  rw [hops]
  simp [isMutation]

/-- Witness for the amended C2 at the counterexample environment. -/
theorem batch_descriptor_always_update_witness :
    ("/home/angus/synced-gdrive/report.txt",
        upload_file envC2 "fld" "/home/angus/synced-gdrive/report.txt") ∈
      sync_existing_files envC2 "fld"
        [{ path := "/home/angus/synced-gdrive/report.txt", isFile := true }] ∧
    (upload_file envC2 "fld" "/home/angus/synced-gdrive/report.txt").2 =
      [RemoteOp.listOp (pathName "/home/angus/synced-gdrive/report.txt") "fld",
       RemoteOp.updateOp (Descriptor.id { id := "r1", name := "report.txt" }) [104, 105]] ∧
    decisionOf (upload_file envC2 "fld" "/home/angus/synced-gdrive/report.txt").1 ≠
      SyncDecision.skip ∧
    ((upload_file envC2 "fld" "/home/angus/synced-gdrive/report.txt").2.filter
        isMutation).length = 1 ∧
    upload_file (scrubMd5 envC2) "fld" "/home/angus/synced-gdrive/report.txt" =
      upload_file envC2 "fld" "/home/angus/synced-gdrive/report.txt" :=
  batch_descriptor_always_update envC2 "fld"
    [{ path := "/home/angus/synced-gdrive/report.txt", isFile := true }]
    { path := "/home/angus/synced-gdrive/report.txt", isFile := true }
    [104, 105] { id := "r1", name := "report.txt" } []
    (List.mem_singleton.mpr rfl) rfl rfl rfl

/-- C3: every Created or Modified event on a regular file is forwarded and
reconciled with a decision that is never Skip — the creation is issued when
the lookup finds nothing and the update against the first match otherwise —
without any fingerprint comparison. -/
theorem watch_never_skip (env : DriveEnv) (fid p : String) (ev : WEvent)
    (hev : ev = WEvent.created p false ∨ ev = WEvent.modified p false) :
    ∃ r, dispatchEvent env fid ev = some r ∧
      r = upload_file env fid p ∧
      decisionOf r.1 ≠ SyncDecision.skip ∧
      upload_file (scrubMd5 env) fid p = upload_file env fid p ∧
      (∀ c, env.readFile p = .ok c →
        (drive_list env (pathName p) fid = .ok [] →
          RemoteOp.createOp (pathName p) [fid] c (mimeTypeFor p) ∈ r.2) ∧
        (∀ d ds, drive_list env (pathName p) fid = .ok (d :: ds) →
          RemoteOp.updateOp d.id c ∈ r.2)) := by
  refine ⟨upload_file env fid p, ?_, rfl, decisionOf_ne_skip _,
    upload_file_scrub env fid p, ?_⟩
  · rcases hev with h | h <;> subst h <;> simp [dispatchEvent]
  · intro c hr
    constructor
    · intro hdl
      obtain ⟨hops, _, _⟩ := upload_shape_create env fid p c hdl hr
      rw [hops]
      simp
    · intro d ds hdl
      obtain ⟨hops, _, _⟩ := upload_shape_update env fid p c d ds hdl hr
      rw [hops]
      simp

/-- Witness for C3: a Modified event on `a.txt` against the empty catalog. -/
theorem watch_never_skip_witness :
    ∃ r, dispatchEvent envW1 "folder1"
        (WEvent.modified "/home/angus/synced-gdrive/a.txt" false) = some r ∧
      r = upload_file envW1 "folder1" "/home/angus/synced-gdrive/a.txt" ∧
      decisionOf r.1 ≠ SyncDecision.skip ∧
      upload_file (scrubMd5 envW1) "folder1" "/home/angus/synced-gdrive/a.txt" =
        upload_file envW1 "folder1" "/home/angus/synced-gdrive/a.txt" ∧
      (∀ c, envW1.readFile "/home/angus/synced-gdrive/a.txt" = .ok c →
        (drive_list envW1 (pathName "/home/angus/synced-gdrive/a.txt") "folder1" = .ok [] →
          RemoteOp.createOp (pathName "/home/angus/synced-gdrive/a.txt") ["folder1"] c
            (mimeTypeFor "/home/angus/synced-gdrive/a.txt") ∈ r.2) ∧
        (∀ d ds,
          drive_list envW1 (pathName "/home/angus/synced-gdrive/a.txt") "folder1" =
            .ok (d :: ds) →
          RemoteOp.updateOp d.id c ∈ r.2)) :=
  watch_never_skip envW1 "folder1" "/home/angus/synced-gdrive/a.txt"
    (WEvent.modified "/home/angus/synced-gdrive/a.txt" false) (Or.inr rfl)

/-- C4: when the lookup returns one or more descriptors, the reconciliation
updates the remote id of the first returned descriptor and issues no
create, even when the lookup returned multiple matches. -/
theorem update_targets_first_match (env : DriveEnv) (fid p : String)
    (c : List Nat) (d : Descriptor) (ds : List Descriptor)
    (hdl : drive_list env (pathName p) fid = .ok (d :: ds))
    (hr : env.readFile p = .ok c) :
    (upload_file env fid p).2 =
      [RemoteOp.listOp (pathName p) fid, RemoteOp.updateOp d.id c] ∧
    (∀ n ps cc m, RemoteOp.createOp n ps cc m ∉ (upload_file env fid p).2) ∧
    (env.updateError d.id = none →
      (upload_file env fid p).1 = SyncOutcome.updated d.id) := by
  obtain ⟨hops, hupd, _⟩ := upload_shape_update env fid p c d ds hdl hr
  refine ⟨hops, ?_, hupd⟩
  intro n ps cc m
  rw [hops]
  simp

/-- Witness for C4: a catalog with two `report.txt` matches; the update
targets `rA`, the id of the first. -/
theorem update_targets_first_match_witness :
    (upload_file envC4 "fld" "/home/angus/synced-gdrive/report.txt").2 =
      [RemoteOp.listOp (pathName "/home/angus/synced-gdrive/report.txt") "fld",
       RemoteOp.updateOp (Descriptor.id { id := "rA", name := "report.txt" }) [104, 105]] ∧
    (∀ n ps cc m, RemoteOp.createOp n ps cc m ∉
      (upload_file envC4 "fld" "/home/angus/synced-gdrive/report.txt").2) ∧
    (envC4.updateError (Descriptor.id { id := "rA", name := "report.txt" }) = none →
      (upload_file envC4 "fld" "/home/angus/synced-gdrive/report.txt").1 =
        SyncOutcome.updated (Descriptor.id { id := "rA", name := "report.txt" })) :=
  update_targets_first_match envC4 "fld" "/home/angus/synced-gdrive/report.txt"
    [104, 105] { id := "rA", name := "report.txt" }
    [{ id := "rB", name := "report.txt" }] rfl rfl

/-- The scan reconciles exactly the regular-file entries: no error makes it
stop early. -/
theorem sync_existing_files_length (env : DriveEnv) (fid : String)
    (entries : List DirEntry) :
    (sync_existing_files env fid entries).length =
      (entries.filter (fun e => e.isFile)).length := by
  induction entries with
  | nil => rfl
  | cons a rest ih =>
    cases ha : a.isFile <;> simp [sync_existing_files, List.filter_cons, ha, ih]

/-- C5: per-file errors are caught at the reconcile call, turned into a
logged Errored outcome, and do not halt the run: every regular file of the
scan listing is reconciled whatever happened for the other files, the scan
output covers all of them, and every delivered watch event is processed
independently. -/
theorem errors_do_not_halt (env : DriveEnv) (fid : String)
    (entries : List DirEntry) (entry : DirEntry)
    (hmem : entry ∈ entries) (hfile : entry.isFile = true) :
    (entry.path, upload_file env fid entry.path) ∈
      sync_existing_files env fid entries ∧
    (sync_existing_files env fid entries).length =
      (entries.filter (fun e => e.isFile)).length ∧
    (∀ e ops, upload_file_body env fid entry.path = .error (e, ops) →
      upload_file env fid entry.path = (SyncOutcome.errored e, ops)) ∧
    (∀ evs ev, ev ∈ evs →
      (ev, dispatchEvent env fid ev) ∈ processEvents env fid evs) := by
  refine ⟨mem_sync_existing_files env fid entries entry hmem hfile,
    sync_existing_files_length env fid entries, ?_, ?_⟩
  · intro e ops h
    simp [upload_file, h]
  · intro evs ev hm
    exact List.mem_map_of_mem (fun ev => (ev, dispatchEvent env fid ev)) hm

/-- Witness for C5: the lookup fails for `broken.bin`, yet `ok.bin`, listed
after it, is still reconciled (and in fact created). -/
theorem errors_do_not_halt_witness :
    (("/home/angus/synced-gdrive/ok.bin",
        upload_file envC5 "fld" "/home/angus/synced-gdrive/ok.bin") ∈
      sync_existing_files envC5 "fld" entriesC5 ∧
    (sync_existing_files envC5 "fld" entriesC5).length =
      (entriesC5.filter (fun e => e.isFile)).length ∧
    (∀ e ops,
      upload_file_body envC5 "fld" "/home/angus/synced-gdrive/ok.bin" = .error (e, ops) →
      upload_file envC5 "fld" "/home/angus/synced-gdrive/ok.bin" =
        (SyncOutcome.errored e, ops)) ∧
    (∀ evs ev, ev ∈ evs →
      (ev, dispatchEvent envC5 "fld" ev) ∈ processEvents envC5 "fld" evs)) ∧
    upload_file envC5 "fld" "/home/angus/synced-gdrive/broken.bin" =
      (SyncOutcome.errored "network down", [RemoteOp.listOp "broken.bin" "fld"]) ∧
    (upload_file envC5 "fld" "/home/angus/synced-gdrive/ok.bin").1 =
      SyncOutcome.created :=
  ⟨errors_do_not_halt envC5 "fld" entriesC5
      { path := "/home/angus/synced-gdrive/ok.bin", isFile := true }
      (by decide) rfl,
    rfl, rfl⟩

/-- C6 counterexample: the catalog lookup raises a RemoteServiceError, yet
the reconcile call returns normally — the error is caught by the handler
inside `upload_file` (outcome Errored, no mutation issued); nothing
propagates out of the call. -/
theorem lookup_error_not_propagated :
    upload_file_body envC6 "fld" "/home/angus/synced-gdrive/broken.bin" =
      Except.error ("network down", [RemoteOp.listOp "broken.bin" "fld"]) ∧
    upload_file envC6 "fld" "/home/angus/synced-gdrive/broken.bin" =
      (SyncOutcome.errored "network down", [RemoteOp.listOp "broken.bin" "fld"]) ∧
    ((upload_file envC6 "fld" "/home/angus/synced-gdrive/broken.bin").2.filter
        isMutation) = [] :=
  ⟨rfl, rfl, rfl⟩

/-- C6 (amended): a RemoteServiceError from the catalog lookup is caught by
the catch-all handler inside the Reconciler: the reconcile call returns
normally with an Errored outcome and the single file's sync attempt is
aborted with no mutation issued; the exception exists only inside the try
body, never past the handler. -/
theorem lookup_error_caught_locally (env : DriveEnv) (fid p e : String)
    (h : env.listError (pathName p) = some e) :
    upload_file_body env fid p =
      Except.error (e, [RemoteOp.listOp (pathName p) fid]) ∧
    upload_file env fid p =
      (SyncOutcome.errored e, [RemoteOp.listOp (pathName p) fid]) ∧
    ((upload_file env fid p).2.filter isMutation) = [] := by
  have hb : upload_file_body env fid p =
      Except.error (e, [RemoteOp.listOp (pathName p) fid]) := by
    simp [upload_file_body, drive_list, h]
  refine ⟨hb, ?_, ?_⟩
  · simp [upload_file, hb]
  · simp [upload_file, hb, isMutation]

/-- Witness for the amended C6 at the always-failing lookup environment. -/
theorem lookup_error_caught_locally_witness :
    upload_file_body envC6 "fld" "/home/angus/synced-gdrive/gone.bin" =
      Except.error ("network down",
        [RemoteOp.listOp (pathName "/home/angus/synced-gdrive/gone.bin") "fld"]) ∧
    upload_file envC6 "fld" "/home/angus/synced-gdrive/gone.bin" =
      (SyncOutcome.errored "network down",
        [RemoteOp.listOp (pathName "/home/angus/synced-gdrive/gone.bin") "fld"]) ∧
    ((upload_file envC6 "fld" "/home/angus/synced-gdrive/gone.bin").2.filter
        isMutation) = [] :=
  lookup_error_caught_locally envC6 "fld" "/home/angus/synced-gdrive/gone.bin"
    "network down" rfl

/-- The bootstrap scan of a directory tree touches exactly the immediate
regular-file children, in listing order. -/
theorem sync_globStar (env : DriveEnv) (fid d : String) (children : List FsNode) :
    sync_existing_files env fid (globStar d children) =
      (topFileNames children).map
        (fun n => (d ++ "/" ++ n, upload_file env fid (d ++ "/" ++ n))) := by
  induction children with
  | nil => rfl
  | cons c rest ih =>
    cases c with
    | file n =>
      have hg : globStar d (FsNode.file n :: rest) =
          { path := d ++ "/" ++ n, isFile := true } :: globStar d rest := rfl
      rw [hg]
      simp [sync_existing_files, topFileNames, ih]
    | dir n cs =>
      have hg : globStar d (FsNode.dir n cs :: rest) =
          { path := d ++ "/" ++ n, isFile := false } :: globStar d rest := rfl
      rw [hg]
      simp [sync_existing_files, topFileNames, ih]

/-- C7: `main` first reconciles exactly the immediate regular-file children
of the watched directory (non-recursive scan: files inside subdirectories
are not scanned), once each and in order, and only afterwards starts the
watch subscription, which is recursive. -/
theorem bootstrap_flat_then_recursive_watch (env : DriveEnv) (fid : String)
    (children : List FsNode) :
    mainSteps env fid children =
      ((topFileNames children).map (fun n =>
        MainStep.reconcileStep (LOCAL_FOLDER ++ "/" ++ n)
          (upload_file env fid (LOCAL_FOLDER ++ "/" ++ n)).1
          (upload_file env fid (LOCAL_FOLDER ++ "/" ++ n)).2)) ++
      [MainStep.startWatchStep LOCAL_FOLDER true] := by
  unfold mainSteps
  rw [sync_globStar]
  simp [List.map_map, Function.comp]

/-- C8: an event whose subject is a directory is never forwarded (no remote
call), and everything forwarded is a Created or Modified event on a regular
file, reconciled synchronously with the startup container. -/
theorem directory_events_ignored (env : DriveEnv) (fid : String) (ev : WEvent) :
    (eventIsDirectory ev = true → dispatchEvent env fid ev = none) ∧
    (∀ r, dispatchEvent env fid ev = some r →
      eventIsDirectory ev = false ∧
      ∃ p, (ev = WEvent.created p false ∨ ev = WEvent.modified p false) ∧
        r = upload_file env fid p) := by
  constructor
  · intro hd
    cases ev <;> simp_all [eventIsDirectory, dispatchEvent]
  · intro r hr
    cases ev with
    | created p d =>
      cases d
      · simp [dispatchEvent] at hr
        exact ⟨rfl, p, Or.inl rfl, hr.symm⟩
      · simp [dispatchEvent] at hr
    | modified p d =>
      cases d
      · simp [dispatchEvent] at hr
        exact ⟨rfl, p, Or.inr rfl, hr.symm⟩
      · simp [dispatchEvent] at hr
    | deleted p d => simp [dispatchEvent] at hr
    | moved p q d => simp [dispatchEvent] at hr

/-- Witness for C8: a Created event on a directory is dropped. -/
theorem directory_events_ignored_witness :
    dispatchEvent envW1 "folder1"
      (WEvent.created "/home/angus/synced-gdrive/sub" true) = none :=
  (directory_events_ignored envW1 "folder1"
    (WEvent.created "/home/angus/synced-gdrive/sub" true)).1 rfl

/-- Exhaustive shape of a reconciliation's remote-call trace: the bare list
query (an error stopped the attempt), or the query followed by exactly one
creation, or by exactly one update of the first match. -/
theorem upload_trace_cases (env : DriveEnv) (fid p : String) :
    (upload_file env fid p).2 = [RemoteOp.listOp (pathName p) fid] ∨
    (∃ c, env.readFile p = .ok c ∧
      ((drive_list env (pathName p) fid = .ok [] ∧
        (upload_file env fid p).2 =
          [RemoteOp.listOp (pathName p) fid,
           RemoteOp.createOp (pathName p) [fid] c (mimeTypeFor p)]) ∨
       (∃ d ds, drive_list env (pathName p) fid = .ok (d :: ds) ∧
        (upload_file env fid p).2 =
          [RemoteOp.listOp (pathName p) fid, RemoteOp.updateOp d.id c]))) := by
  cases hdl : drive_list env (pathName p) fid with
  | error e =>
    left
    simp [upload_file, upload_file_body, hdl]
  | ok ds =>
    cases hr : env.readFile p with
    | error e =>
      left
      simp [upload_file, upload_file_body, hdl, hr]
    | ok c =>
      cases ds with
      | nil =>
        exact Or.inr ⟨c, rfl, Or.inl ⟨rfl, (upload_shape_create env fid p c hdl hr).1⟩⟩
      | cons d rest =>
        exact Or.inr ⟨c, rfl,
          Or.inr ⟨d, rest, rfl, (upload_shape_update env fid p c d rest hdl hr).1⟩⟩

/-- C9: no reconciliation — in a scan or for a watch event — ever issues a
delete or trash call; each issues at most one mutation, a creation carries
the reconciled file's name and the container as its only parent, and an
update targets only the id of the first descriptor matching that name. -/
theorem no_delete_single_mutation (env : DriveEnv) (fid p : String) :
    ((upload_file env fid p).2.filter isDeleteOrTrash = []) ∧
    (((upload_file env fid p).2.filter isMutation).length ≤ 1) ∧
    (∀ n ps cc m, RemoteOp.createOp n ps cc m ∈ (upload_file env fid p).2 →
      n = pathName p ∧ ps = [fid]) ∧
    (∀ i cc, RemoteOp.updateOp i cc ∈ (upload_file env fid p).2 →
      ∃ d ds, drive_list env (pathName p) fid = .ok (d :: ds) ∧ i = d.id) ∧
    (∀ entries r, r ∈ sync_existing_files env fid entries →
      r.2.2.filter isDeleteOrTrash = []) ∧
    (∀ ev r, dispatchEvent env fid ev = some r →
      r.2.filter isDeleteOrTrash = []) := by
  have key : ∀ q : String,
      ((upload_file env fid q).2.filter isDeleteOrTrash = []) ∧
      (((upload_file env fid q).2.filter isMutation).length ≤ 1) ∧
      (∀ n ps cc m, RemoteOp.createOp n ps cc m ∈ (upload_file env fid q).2 →
        n = pathName q ∧ ps = [fid]) ∧
      (∀ i cc, RemoteOp.updateOp i cc ∈ (upload_file env fid q).2 →
        ∃ d ds, drive_list env (pathName q) fid = .ok (d :: ds) ∧ i = d.id) := by
    intro q
    rcases upload_trace_cases env fid q with h | ⟨c, hr, ⟨hdl, h⟩ | ⟨d, ds, hdl, h⟩⟩
    · refine ⟨?_, ?_, ?_, ?_⟩ <;> simp [h, isDeleteOrTrash, isMutation]
    · refine ⟨?_, ?_, ?_, ?_⟩
      · simp [h, isDeleteOrTrash]
      · simp [h, isMutation]
      · intro n ps cc m hm
        rw [h] at hm
        simp at hm
        exact ⟨hm.1, hm.2.1⟩
      · intro i cc hm
        rw [h] at hm
        simp at hm
    · refine ⟨?_, ?_, ?_, ?_⟩
      · simp [h, isDeleteOrTrash]
      · simp [h, isMutation]
      · intro n ps cc m hm
        rw [h] at hm
        simp at hm
      · intro i cc hm
        rw [h] at hm
        simp at hm
        exact ⟨d, ds, hdl, hm.1⟩
  refine ⟨(key p).1, (key p).2.1, (key p).2.2.1, (key p).2.2.2, ?_, ?_⟩
  · intro entries r hrm
    obtain ⟨e, _, _, hre⟩ := sync_existing_files_mem env fid entries r hrm
    rw [hre]
    exact (key e.path).1
  · intro ev r hrm
    cases ev with
    | created q d =>
      cases d
      · simp [dispatchEvent] at hrm
        rw [← hrm]
        exact (key q).1
      · simp [dispatchEvent] at hrm
    | modified q d =>
      cases d
      · simp [dispatchEvent] at hrm
        rw [← hrm]
        exact (key q).1
      · simp [dispatchEvent] at hrm
    | deleted q d => simp [dispatchEvent] at hrm
    | moved q q2 d => simp [dispatchEvent] at hrm

/-- Witness for C9: the trace of the event-driven reconciliation of `b.txt`
holds no delete or trash call. -/
theorem no_delete_single_mutation_witness :
    (upload_file envW1 "folder1" "/home/angus/synced-gdrive/sub/b.txt").2.filter
      isDeleteOrTrash = [] :=
  (no_delete_single_mutation envW1 "folder1"
      "/home/angus/synced-gdrive/sub/b.txt").2.2.2.2.2
    (WEvent.created "/home/angus/synced-gdrive/sub/b.txt" false)
    (upload_file envW1 "folder1" "/home/angus/synced-gdrive/sub/b.txt") rfl

/-- C10: with the same file name and the same catalog lookup result, two
reconciliations choose the same kind of remote mutation against the same
target, whatever the bytes of the local file. -/
theorem decision_content_independent (env1 env2 : DriveEnv) (fid p1 p2 : String)
    (ds : List Descriptor) (c1 c2 : List Nat)
    (hn : pathName p1 = pathName p2)
    (h1 : drive_list env1 (pathName p1) fid = .ok ds)
    (h2 : drive_list env2 (pathName p2) fid = .ok ds)
    (hr1 : env1.readFile p1 = .ok c1)
    (hr2 : env2.readFile p2 = .ok c2) :
    chosenMutation (upload_file env1 fid p1).2 =
      chosenMutation (upload_file env2 fid p2).2 := by
  cases ds with
  | nil =>
    obtain ⟨ho1, _, _⟩ := upload_shape_create env1 fid p1 c1 h1 hr1
    obtain ⟨ho2, _, _⟩ := upload_shape_create env2 fid p2 c2 h2 hr2
    rw [ho1, ho2, hn]
    simp [chosenMutation]
  | cons d rest =>
    obtain ⟨ho1, _, _⟩ := upload_shape_update env1 fid p1 c1 d rest h1 hr1
    obtain ⟨ho2, _, _⟩ := upload_shape_update env2 fid p2 c2 d rest h2 hr2
    rw [ho1, ho2]
    simp [chosenMutation]

/-- Witness for C10: same name `n.txt`, same single-match lookup, different
local bytes (`[1]` against `[2, 3]`): the chosen mutation coincides. -/
theorem decision_content_independent_witness :
    chosenMutation (upload_file envC10a "fld" "/alpha/n.txt").2 =
      chosenMutation (upload_file envC10b "fld" "/beta/n.txt").2 :=
  decision_content_independent envC10a envC10b "fld" "/alpha/n.txt" "/beta/n.txt"
    [{ id := "r9", name := "n.txt" }] [1] [2, 3] rfl rfl rfl rfl rfl

end SyncNotes
